import Mathlib

/-!
Verification of the aetherforge telemetry sniffer's frame decoder and
message dispatcher (Go sources: the MAVLink v2 sniffer with parseFrame,
tryHeartbeat and tryGlobalPosition, plus its read loop).

Modelling conventions:
- A datagram is the list of the first n bytes read from the socket
  (the Go code passes the 2048-byte buffer together with n and never
  reads past n once validation has passed); bytes are Nat values.
- Go's uint32 arithmetic in the decoders only combines byte values with
  shifts of at most 24, so no wraparound can occur and plain Nat
  arithmetic is exact.
- Go's runtime bounds check on each payload access is made explicit:
  readU8 returns an error exactly when the Go access would panic with
  index out of range, and tryHeartbeat propagates such a panic.
- float64 division by 1e7 / 1000.0 in tryGlobalPosition is modelled by
  exact rational division.
-/

namespace Aetherforge

/-- Go constant headerLen: fixed MAVLink v2 header size. -/
def headerLen : Nat := 10

/-- Go constant crcLen: trailing checksum size. -/
def crcLen : Nat := 2

/-- Go struct frame: validated structural view over a datagram. -/
structure Frame where
  Len : Nat
  SysID : Nat
  CompID : Nat
  MsgID : Nat
  Payload : List Nat
deriving Repr, DecidableEq

/-- Go struct Heartbeat. The Go field named Type is rendered VehType
because Type is a reserved word in Lean. -/
structure Heartbeat where
  VehType : Nat
  Autopilot : Nat
  BaseMode : Nat
  CustomMode : Nat
  SystemStatus : Nat
deriving Repr, DecidableEq

/-- binary.LittleEndian.Uint32 on four bytes:
b0 or b1 shl 8 or b2 shl 16 or b3 shl 24 (no wraparound for byte inputs). -/
def leU32 (b0 b1 b2 b3 : Nat) : Nat :=
  b0 ||| b1 <<< 8 ||| b2 <<< 16 ||| b3 <<< 24

/-- Go conversion int32(u) of a uint32 value: two's-complement
reinterpretation of the low 32 bits. -/
def toInt32 (u : Nat) : Int :=
  if u % 2 ^ 32 < 2 ^ 31 then ((u % 2 ^ 32 : Nat) : Int)
  else ((u % 2 ^ 32 : Nat) : Int) - 2 ^ 32

/-- parseFrame(buf, n): the datagram is the list of the n bytes read.
Returns none on the three rejection branches of the source, in order:
too short, bad magic, incomplete frame. -/
def parseFrame (buf : List Nat) : Option Frame :=
  if buf.length < headerLen + crcLen then
    none
  else if buf.getD 0 0 ≠ 0xFD then
    none
  else if buf.length < headerLen + buf.getD 1 0 + crcLen then
    none
  else
    some
      { Len := buf.getD 1 0
        SysID := buf.getD 5 0
        CompID := buf.getD 6 0
        MsgID := buf.getD 7 0 ||| buf.getD 8 0 <<< 8 ||| buf.getD 9 0 <<< 16
        Payload := (buf.drop 10).take (buf.getD 1 0) }

/-- The three rejection branches of parseFrame, named after the source
comments on each early return (too short / not MAVLink V2 / incomplete
frame) and the spec's labels for them. -/
inductive Reject where
  | TooShort
  | BadMagic
  | Incomplete
deriving Repr, DecidableEq

/-- parseFrame with each rejection branch tagged by its reason; same
check chain as parseFrame, used to state which check fails first. -/
def decodeFrame (buf : List Nat) : Except Reject Frame :=
  if buf.length < headerLen + crcLen then
    .error .TooShort
  else if buf.getD 0 0 ≠ 0xFD then
    .error .BadMagic
  else if buf.length < headerLen + buf.getD 1 0 + crcLen then
    .error .Incomplete
  else
    .ok
      { Len := buf.getD 1 0
        SysID := buf.getD 5 0
        CompID := buf.getD 6 0
        MsgID := buf.getD 7 0 ||| buf.getD 8 0 <<< 8 ||| buf.getD 9 0 <<< 16
        Payload := (buf.drop 10).take (buf.getD 1 0) }

/-- Go's bounds-checked byte access p[i]: an error models the runtime
panic (index out of range) when i is not a valid index. -/
def readU8 (p : List Nat) (i : Nat) : Except Unit Nat :=
  if h : i < p.length then .ok (p.get ⟨i, h⟩) else .error ()

/-- tryHeartbeat(f). The source guard is
  if f.MsgID != 0 && len(f.Payload) != 9 then return false.
Past the guard it reads p[0:4], p[4], p[5], p[6], p[7]; each access
carries Go's bounds check, so any missing byte is a runtime panic,
modelled as the error case. -/
def tryHeartbeat (f : Frame) : Except Unit (Option Heartbeat) :=
  if f.MsgID ≠ 0 ∧ f.Payload.length ≠ 9 then
    .ok none
  else
    match readU8 f.Payload 0, readU8 f.Payload 1, readU8 f.Payload 2,
        readU8 f.Payload 3, readU8 f.Payload 4, readU8 f.Payload 5,
        readU8 f.Payload 6, readU8 f.Payload 7 with
    | .ok b0, .ok b1, .ok b2, .ok b3, .ok b4, .ok b5, .ok b6, .ok b7 =>
      .ok (some
        { VehType := b4
          Autopilot := b5
          BaseMode := b6
          CustomMode := leU32 b0 b1 b2 b3
          SystemStatus := b7 })
    | _, _, _, _, _, _, _, _ => .error ()

/-- tryGlobalPosition(f). The guard
  f.MsgID != 33 or len(f.Payload) < 28
rejects with none; past the guard every access p[4:8], p[8:12],
p[12:16] is within the 28-byte prefix, so no bounds check can fail.
float64 scaling is modelled by exact rational division. -/
def tryGlobalPosition (f : Frame) : Option (ℚ × ℚ × ℚ) :=
  if f.MsgID ≠ 33 ∨ f.Payload.length < 28 then
    none
  else
    some
      ((toInt32 (leU32 (f.Payload.getD 4 0) (f.Payload.getD 5 0)
          (f.Payload.getD 6 0) (f.Payload.getD 7 0)) : ℚ) / 10000000,
       (toInt32 (leU32 (f.Payload.getD 8 0) (f.Payload.getD 9 0)
          (f.Payload.getD 10 0) (f.Payload.getD 11 0)) : ℚ) / 10000000,
       (toInt32 (leU32 (f.Payload.getD 12 0) (f.Payload.getD 13 0)
          (f.Payload.getD 14 0) (f.Payload.getD 15 0)) : ℚ) / 1000)

/-- A record emitted by the read loop: either a heartbeat with its
derived armed flag (main computes armed = BaseMode and 0x80 != 0), or
a global position with scaled latitude, longitude and altitude. -/
inductive Record where
  | heartbeat (hb : Heartbeat) (armed : Bool)
  | globalPosition (lat lon alt : ℚ)
deriving Repr, DecidableEq

/-- The dispatch in main's read loop: try heartbeat first, then global
position, else no record; a panic in tryHeartbeat propagates. -/
def dispatch (f : Frame) : Except Unit (Option Record) :=
  match tryHeartbeat f with
  | .error e => .error e
  | .ok (some hb) => .ok (some (.heartbeat hb (hb.BaseMode &&& 0x80 != 0)))
  | .ok none =>
    match tryGlobalPosition f with
    | some (lat, lon, alt) => .ok (some (.globalPosition lat lon alt))
    | none => .ok none

/-- Outcome of one receive attempt in the read loop. -/
inductive RecvResult where
  | timeoutErr
  | otherErr
  | success (datagram : List Nat)
deriving Repr, DecidableEq

/-- What one loop iteration does next: exit the loop, continue (having
emitted at most one record), or crash on a runtime panic. -/
inductive LoopOutcome where
  | exit
  | cont (emitted : Option Record)
  | panicked
deriving Repr, DecidableEq

/-- One iteration of main's read loop, after the receive completes.
cancelled is whether ctx.Done() is observed as closed. On a timeout
error or any other error the loop exits when cancelled and continues
otherwise; on a successful receive it parses and dispatches and then
reaches the next iteration, unless the dispatch panics. -/
def loopStep (cancelled : Bool) (r : RecvResult) : LoopOutcome :=
  match r with
  | .timeoutErr => if cancelled then .exit else .cont none
  | .otherErr => if cancelled then .exit else .cont none
  | .success buf =>
    match parseFrame buf with
    | none => .cont none
    | some f =>
      match dispatch f with
      | .error _ => .panicked
      | .ok emitted => .cont emitted

/-! Concrete inputs used by the bug exhibits and witnesses. -/

/-- A minimal valid frame datagram: magic 0xFD, payload length 0,
msgId 0, 2-byte trailer; 12 bytes total. -/
def d0 : List Nat := [0xFD, 0, 0, 0, 0, 1, 1, 0, 0, 0, 0, 0]

/-- The frame parseFrame extracts from d0. -/
def f0 : Frame := { Len := 0, SysID := 1, CompID := 1, MsgID := 0, Payload := [] }

/-- A valid frame datagram with unknown msgId 42 and payload length 9. -/
def d42 : List Nat :=
  [0xFD, 9, 0, 0, 0, 7, 1, 42, 0, 0, 10, 11, 12, 13, 14, 15, 16, 17, 18, 0, 0]

/-- The frame parseFrame extracts from d42. -/
def f42 : Frame :=
  { Len := 9, SysID := 7, CompID := 1, MsgID := 42
    Payload := [10, 11, 12, 13, 14, 15, 16, 17, 18] }

/-- The spec's synthetic heartbeat: customMode 0x01020304 (little-endian
bytes 4,3,2,1), vehicleType 2, autopilotType 3, baseMode 0x80,
systemStatus 4, a ninth payload byte, framed with magic 0xFD, payload
length 9, msgId 0 and a 2-byte trailer. -/
def syntheticHeartbeatDatagram : List Nat :=
  [0xFD, 9, 0, 0, 0, 1, 1, 0, 0, 0, 4, 3, 2, 1, 2, 3, 0x80, 4, 3, 0xAB, 0xCD]

/-- The frame parseFrame extracts from syntheticHeartbeatDatagram. -/
def shbFrame : Frame :=
  { Len := 9, SysID := 1, CompID := 1, MsgID := 0
    Payload := [4, 3, 2, 1, 2, 3, 0x80, 4, 3] }

/-- A heartbeat frame with baseMode 0xFF (armed). -/
def hbArmedFrame : Frame :=
  { Len := 9, SysID := 1, CompID := 1, MsgID := 0
    Payload := [4, 3, 2, 1, 2, 3, 0xFF, 4, 3] }

/-- A GlobalPosition frame: payload bytes 4 to 7 encode latitude integer
473977420, bytes 8 to 11 longitude integer 85456080, bytes 12 to 15
altitude millimetres -5000 (two's complement), 28 bytes in all. -/
def gpFrame : Frame :=
  { Len := 28, SysID := 1, CompID := 1, MsgID := 33
    Payload := [1, 2, 3, 4, 76, 82, 64, 28, 208, 244, 23, 5, 120, 236, 255, 255,
                0, 0, 0, 0, 0, 0, 0, 0, 0, 0, 0, 0] }

/-- Two heartbeat frames that agree on payload bytes 0 to 7 but differ
in payload length, trailing bytes, systemId and componentId. -/
def hbFrameA : Frame :=
  { Len := 9, SysID := 1, CompID := 2, MsgID := 0
    Payload := [4, 3, 2, 1, 2, 3, 0x80, 4, 3] }

/-- Companion frame to hbFrameA; see there. -/
def hbFrameB : Frame :=
  { Len := 10, SysID := 9, CompID := 8, MsgID := 0
    Payload := [4, 3, 2, 1, 2, 3, 0x80, 4, 77, 99] }

end Aetherforge

namespace Aetherforge

/-! Helper lemmas shared by the claim theorems. -/

theorem readU8_of_lt {p : List Nat} {i : Nat} (h : i < p.length) :
    readU8 p i = .ok (p.getD i 0) := by
  simp [readU8, h, List.getD_eq_getElem?_getD, List.getElem?_eq_getElem, List.get_eq_getElem]

theorem parseFrame_eq_some_iff (buf : List Nat) (f : Frame) :
    parseFrame buf = some f ↔
      12 ≤ buf.length ∧ buf.getD 0 0 = 0xFD ∧ 10 + buf.getD 1 0 + 2 ≤ buf.length ∧
      f = { Len := buf.getD 1 0, SysID := buf.getD 5 0, CompID := buf.getD 6 0,
            MsgID := buf.getD 7 0 ||| buf.getD 8 0 <<< 8 ||| buf.getD 9 0 <<< 16,
            Payload := (buf.drop 10).take (buf.getD 1 0) } := by
  unfold parseFrame headerLen crcLen
  split
  · constructor
    · intro h; cases h
    · intro h; omega
  · split
    · constructor
      · intro h; cases h
      · intro h; tauto
    · split
      · constructor
        · intro h; cases h
        · intro h; omega
      · constructor
        · intro h
          refine ⟨by omega, by tauto, by omega, ?_⟩
          exact (Option.some_inj.mp h).symm
        · intro h
          exact congrArg some h.2.2.2.symm

theorem tryHeartbeat_decodes (f : Frame)
    (hguard : f.MsgID = 0 ∨ f.Payload.length = 9) (h8 : 8 ≤ f.Payload.length) :
    tryHeartbeat f = .ok (some
      { VehType := f.Payload.getD 4 0
        Autopilot := f.Payload.getD 5 0
        BaseMode := f.Payload.getD 6 0
        CustomMode := leU32 (f.Payload.getD 0 0) (f.Payload.getD 1 0)
          (f.Payload.getD 2 0) (f.Payload.getD 3 0)
        SystemStatus := f.Payload.getD 7 0 }) := by
  unfold tryHeartbeat
  rw [if_neg (by tauto)]
  rw [readU8_of_lt (by omega), readU8_of_lt (by omega), readU8_of_lt (by omega),
      readU8_of_lt (by omega), readU8_of_lt (by omega), readU8_of_lt (by omega),
      readU8_of_lt (by omega), readU8_of_lt (by omega)]

theorem decodeFrame_tooShort_iff (buf : List Nat) :
    decodeFrame buf = .error .TooShort ↔ buf.length < 12 := by
  unfold decodeFrame
  by_cases h1 : buf.length < headerLen + crcLen
  · rw [if_pos h1]
    simp only [headerLen, crcLen] at h1
    exact iff_of_true rfl (by omega)
  · rw [if_neg h1]
    simp only [headerLen, crcLen] at h1
    by_cases h2 : buf.getD 0 0 ≠ 0xFD
    · rw [if_pos h2]
      exact iff_of_false (by simp) (by omega)
    · rw [if_neg h2]
      by_cases h3 : buf.length < headerLen + buf.getD 1 0 + crcLen
      · rw [if_pos h3]
        exact iff_of_false (by simp) (by omega)
      · rw [if_neg h3]
        exact iff_of_false (by simp) (by omega)

theorem decodeFrame_badMagic_iff (buf : List Nat) :
    decodeFrame buf = .error .BadMagic ↔
      12 ≤ buf.length ∧ buf.getD 0 0 ≠ 0xFD := by
  unfold decodeFrame
  by_cases h1 : buf.length < headerLen + crcLen
  · rw [if_pos h1]
    simp only [headerLen, crcLen] at h1
    exact iff_of_false (by simp) (by rintro ⟨ha, -⟩; omega)
  · rw [if_neg h1]
    simp only [headerLen, crcLen] at h1
    by_cases h2 : buf.getD 0 0 ≠ 0xFD
    · rw [if_pos h2]
      exact iff_of_true rfl ⟨by omega, h2⟩
    · rw [if_neg h2]
      by_cases h3 : buf.length < headerLen + buf.getD 1 0 + crcLen
      · rw [if_pos h3]
        exact iff_of_false (by simp) (by rintro ⟨-, hb⟩; exact h2 hb)
      · rw [if_neg h3]
        exact iff_of_false (by simp) (by rintro ⟨-, hb⟩; exact h2 hb)

theorem decodeFrame_incomplete_iff (buf : List Nat) :
    decodeFrame buf = .error .Incomplete ↔
      12 ≤ buf.length ∧ buf.getD 0 0 = 0xFD ∧
        buf.length < 10 + buf.getD 1 0 + 2 := by
  unfold decodeFrame
  by_cases h1 : buf.length < headerLen + crcLen
  · rw [if_pos h1]
    simp only [headerLen, crcLen] at h1
    exact iff_of_false (by simp) (by rintro ⟨ha, -, -⟩; omega)
  · rw [if_neg h1]
    simp only [headerLen, crcLen] at h1
    by_cases h2 : buf.getD 0 0 ≠ 0xFD
    · rw [if_pos h2]
      exact iff_of_false (by simp) (by rintro ⟨-, hb, -⟩; exact h2 hb)
    · rw [if_neg h2]
      by_cases h3 : buf.length < headerLen + buf.getD 1 0 + crcLen
      · rw [if_pos h3]
        refine iff_of_true rfl ⟨by omega, not_not.mp h2, ?_⟩
        simp only [headerLen, crcLen] at h3
        exact h3
      · rw [if_neg h3]
        simp only [headerLen, crcLen] at h3
        exact iff_of_false (by simp) (by rintro ⟨-, -, hc⟩; omega)

theorem decodeFrame_ok_exists_iff (buf : List Nat) :
    (∃ f, decodeFrame buf = .ok f) ↔
      12 ≤ buf.length ∧ buf.getD 0 0 = 0xFD ∧
        10 + buf.getD 1 0 + 2 ≤ buf.length := by
  unfold decodeFrame
  by_cases h1 : buf.length < headerLen + crcLen
  · rw [if_pos h1]
    simp only [headerLen, crcLen] at h1
    exact iff_of_false (by simp) (by rintro ⟨ha, -, -⟩; omega)
  · rw [if_neg h1]
    simp only [headerLen, crcLen] at h1
    by_cases h2 : buf.getD 0 0 ≠ 0xFD
    · rw [if_pos h2]
      exact iff_of_false (by simp) (by rintro ⟨-, hb, -⟩; exact h2 hb)
    · rw [if_neg h2]
      by_cases h3 : buf.length < headerLen + buf.getD 1 0 + crcLen
      · rw [if_pos h3]
        simp only [headerLen, crcLen] at h3
        exact iff_of_false (by simp) (by rintro ⟨-, -, hc⟩; omega)
      · rw [if_neg h3]
        simp only [headerLen, crcLen] at h3
        exact iff_of_true ⟨_, rfl⟩ ⟨by omega, not_not.mp h2, by omega⟩

theorem decodeFrame_ok_iff_parseFrame (buf : List Nat) (f : Frame) :
    decodeFrame buf = .ok f ↔ parseFrame buf = some f := by
  unfold decodeFrame parseFrame
  by_cases h1 : buf.length < headerLen + crcLen
  · rw [if_pos h1, if_pos h1]
    simp
  · rw [if_neg h1, if_neg h1]
    by_cases h2 : buf.getD 0 0 ≠ 0xFD
    · rw [if_pos h2, if_pos h2]
      simp
    · rw [if_neg h2, if_neg h2]
      by_cases h3 : buf.length < headerLen + buf.getD 1 0 + crcLen
      · rw [if_pos h3, if_pos h3]
        simp
      · rw [if_neg h3, if_neg h3]
        simp

end Aetherforge

namespace Aetherforge

/-- C1: The spec claims a validated frame whose messageId is neither 0 nor
33 (for example 42) never yields a record. The code violates this: the
tryHeartbeat guard rejects only when both MsgID differs from 0 and the
payload length differs from 9, so the frame parsed from d42 (messageId 42,
payload length 9) is decoded as a Heartbeat and dispatched as a record. -/
theorem C1_unknown_msgid_yields_record :
    parseFrame d42 = some f42 ∧ f42.MsgID = 42 ∧
      dispatch f42 = .ok (some (.heartbeat
        { VehType := 14, Autopilot := 15, BaseMode := 16,
          CustomMode := leU32 10 11 12 13, SystemStatus := 17 } false)) :=
  ⟨by decide, rfl, rfl⟩

/-- C2: The spec claims a recognized messageId with a too-short payload is
silently ignored and never causes a panic or out-of-bounds access. The
code violates this for messageId 0: the frame parsed from d0 (messageId 0,
payload length 0) passes the tryHeartbeat guard and the payload accesses
hit Go's bounds check, a runtime panic (modelled as the error case). -/
theorem C2_short_heartbeat_payload_panics :
    parseFrame d0 = some f0 ∧ f0.MsgID = 0 ∧ f0.Payload.length < 9 ∧
      tryHeartbeat f0 = .error () :=
  ⟨by decide, rfl, by decide, rfl⟩

/-- C3: The frame decoder applies the validation checks in order, each
failing check giving its distinct rejection: TooShort when the datagram
has fewer than 12 bytes, else BadMagic when byte 0 is not 0xFD, else
Incomplete when 10 + declared payload length + 2 exceeds the datagram
length; a frame is produced exactly when all three checks pass, and the
tagged decoder agrees with parseFrame from the source. -/
theorem C3_validation_sequence (buf : List Nat) :
    (decodeFrame buf = .error .TooShort ↔ buf.length < 12) ∧
    (decodeFrame buf = .error .BadMagic ↔
      12 ≤ buf.length ∧ buf.getD 0 0 ≠ 0xFD) ∧
    (decodeFrame buf = .error .Incomplete ↔
      12 ≤ buf.length ∧ buf.getD 0 0 = 0xFD ∧
        buf.length < 10 + buf.getD 1 0 + 2) ∧
    ((∃ f, decodeFrame buf = .ok f) ↔
      12 ≤ buf.length ∧ buf.getD 0 0 = 0xFD ∧
        10 + buf.getD 1 0 + 2 ≤ buf.length) ∧
    (∀ f, decodeFrame buf = .ok f ↔ parseFrame buf = some f) :=
  ⟨decodeFrame_tooShort_iff buf, decodeFrame_badMagic_iff buf,
   decodeFrame_incomplete_iff buf, decodeFrame_ok_exists_iff buf,
   fun f => decodeFrame_ok_iff_parseFrame buf f⟩

/-- C4: Every frame accepted by parseFrame has systemId = byte 5,
componentId = byte 6, messageId = byte 7 or byte 8 shl 8 or byte 9 shl 16,
and payload = bytes 10 through 10 + payloadLength where payloadLength is
byte 1 of the datagram. -/
theorem C4_field_extraction (buf : List Nat) (f : Frame)
    (h : parseFrame buf = some f) :
    f.SysID = buf.getD 5 0 ∧ f.CompID = buf.getD 6 0 ∧
      f.MsgID = buf.getD 7 0 ||| buf.getD 8 0 <<< 8 ||| buf.getD 9 0 <<< 16 ∧
      f.Payload = (buf.drop 10).take (buf.getD 1 0) := by
  obtain ⟨-, -, -, rfl⟩ := (parseFrame_eq_some_iff buf f).mp h
  exact ⟨rfl, rfl, rfl, rfl⟩

/-- Witness for C4 at the concrete datagram d42. -/
theorem C4_field_extraction_witness :
    parseFrame d42 = some f42 ∧
      (f42.SysID = d42.getD 5 0 ∧ f42.CompID = d42.getD 6 0 ∧
       f42.MsgID = d42.getD 7 0 ||| d42.getD 8 0 <<< 8 ||| d42.getD 9 0 <<< 16 ∧
       f42.Payload = (d42.drop 10).take (d42.getD 1 0)) :=
  ⟨by decide, C4_field_extraction d42 f42 (by decide)⟩

/-- C5: For a frame with messageId 0 and payload length at least 9 the
heartbeat decode succeeds: customMode is the little-endian uint32 of
payload bytes 0 to 3, vehicleType byte 4, autopilotType byte 5, baseMode
byte 6, systemStatus byte 7, and the dispatched record carries
armed = (baseMode and 0x80) != 0; the boundary cases baseMode 0x7F (not
armed) and 0xFF (armed) are instances of that formula. -/
theorem C5_heartbeat_decode (f : Frame)
    (h0 : f.MsgID = 0) (h9 : 9 ≤ f.Payload.length) :
    dispatch f = .ok (some (.heartbeat
      { VehType := f.Payload.getD 4 0
        Autopilot := f.Payload.getD 5 0
        BaseMode := f.Payload.getD 6 0
        CustomMode := leU32 (f.Payload.getD 0 0) (f.Payload.getD 1 0)
          (f.Payload.getD 2 0) (f.Payload.getD 3 0)
        SystemStatus := f.Payload.getD 7 0 }
      ((f.Payload.getD 6 0 &&& 0x80) != 0))) ∧
    (((0x7F : Nat) &&& 0x80) != 0) = false ∧
    (((0xFF : Nat) &&& 0x80) != 0) = true := by
  refine ⟨?_, by decide, by decide⟩
  unfold dispatch
  rw [tryHeartbeat_decodes f (Or.inl h0) (by omega)]

/-- Witness for C5 at a concrete armed frame with baseMode 0xFF. -/
theorem C5_heartbeat_decode_witness :
    dispatch hbArmedFrame = .ok (some (.heartbeat
      { VehType := 2, Autopilot := 3, BaseMode := 0xFF,
        CustomMode := leU32 4 3 2 1, SystemStatus := 4 } true)) := by
  have h := (C5_heartbeat_decode hbArmedFrame rfl (by decide)).1
  rw [h]
  rfl

/-- C6: For a frame with messageId 33 and payload length at least 28, the
GlobalPosition decode succeeds and yields the signed 32-bit little-endian
integers at payload bytes 4 to 7, 8 to 11 and 12 to 15, scaled by ten to
the minus 7 degrees, ten to the minus 7 degrees and ten to the minus 3
metres respectively (float64 modelled as exact rationals); the result
depends on no other payload bytes, in particular not on bytes 0 to 3. -/
theorem C6_globalposition_decode (f : Frame)
    (h33 : f.MsgID = 33) (h28 : 28 ≤ f.Payload.length) :
    tryGlobalPosition f = some
      ((toInt32 (leU32 (f.Payload.getD 4 0) (f.Payload.getD 5 0)
          (f.Payload.getD 6 0) (f.Payload.getD 7 0)) : ℚ) / 10000000,
       (toInt32 (leU32 (f.Payload.getD 8 0) (f.Payload.getD 9 0)
          (f.Payload.getD 10 0) (f.Payload.getD 11 0)) : ℚ) / 10000000,
       (toInt32 (leU32 (f.Payload.getD 12 0) (f.Payload.getD 13 0)
          (f.Payload.getD 14 0) (f.Payload.getD 15 0)) : ℚ) / 1000) := by
  unfold tryGlobalPosition
  rw [if_neg (by push_neg; exact ⟨h33, by omega⟩)]

/-- Witness for C6: latitude integer 473977420 decodes to 47.3977420
degrees, longitude integer 85456080 to 8.5456080 degrees, and altitude
millimetre integer -5000 to -5 metres. -/
theorem C6_globalposition_decode_witness :
    tryGlobalPosition gpFrame = some (47.3977420, 8.5456080, -5) := by
  have h := C6_globalposition_decode gpFrame rfl (by decide)
  rw [h]
  have h1 : (76 ||| 82 <<< 8 ||| 64 <<< 16 ||| 28 <<< 24) = 473977420 := by decide
  have h2 : (208 ||| 244 <<< 8 ||| 23 <<< 16 ||| 5 <<< 24) = 85456080 := by decide
  have h3 : (120 ||| 236 <<< 8 ||| 255 <<< 16 ||| 255 <<< 24) = 4294962296 := by decide
  norm_num [gpFrame, leU32, toInt32, h1, h2, h3]

/-- C7: Round-trip. Framing the synthetic heartbeat payload (customMode
0x01020304, vehicleType 2, autopilotType 3, baseMode 0x80, systemStatus 4)
as a valid version-2 frame and running it through parseFrame and the
dispatcher yields a heartbeat record with armed true and customMode
0x01020304. -/
theorem C7_heartbeat_roundtrip :
    (parseFrame syntheticHeartbeatDatagram).map dispatch =
      some (.ok (some (.heartbeat
        { VehType := 2, Autopilot := 3, BaseMode := 0x80,
          CustomMode := 0x01020304, SystemStatus := 4 } true))) := rfl

/-- C8: Every frame produced by parseFrame satisfies the payload
invariant: the payload has exactly payloadLength bytes, it is exactly
the datagram slice from byte 10 to byte 10 + payloadLength, and
header (10) + payloadLength + trailer (2) fit within the datagram. -/
theorem C8_payload_invariant (buf : List Nat) (f : Frame)
    (h : parseFrame buf = some f) :
    f.Payload.length = f.Len ∧ f.Payload = (buf.drop 10).take f.Len ∧
      10 + f.Len + 2 ≤ buf.length := by
  obtain ⟨h12, -, htot, rfl⟩ := (parseFrame_eq_some_iff buf f).mp h
  refine ⟨?_, rfl, htot⟩
  simp only [List.length_take, List.length_drop]
  omega

/-- Witness for C8 at the synthetic heartbeat datagram. -/
theorem C8_payload_invariant_witness :
    parseFrame syntheticHeartbeatDatagram = some shbFrame ∧
      (shbFrame.Payload.length = shbFrame.Len ∧
       shbFrame.Payload = (syntheticHeartbeatDatagram.drop 10).take shbFrame.Len ∧
       10 + shbFrame.Len + 2 ≤ syntheticHeartbeatDatagram.length) :=
  ⟨by decide, C8_payload_invariant syntheticHeartbeatDatagram shbFrame (by decide)⟩

/-- C9: The spec claims the read loop always continues after a successful
receive whatever the decode outcome, and exits only on a receive error
with cancellation observed. The code violates the first part: on the
datagram d0 (valid frame, messageId 0, empty payload) the dispatch panics
inside tryHeartbeat, terminating the loop without cancellation. The error
branches do behave as claimed: on either receive error the iteration
exits when cancelled and continues otherwise. -/
theorem C9_loop_panics_on_poisoned_datagram :
    loopStep false (.success d0) = .panicked ∧
    (∀ c : Bool, loopStep c .timeoutErr = if c then .exit else .cont none) ∧
    (∀ c : Bool, loopStep c .otherErr = if c then .exit else .cont none) :=
  ⟨rfl, fun c => by cases c <;> rfl, fun c => by cases c <;> rfl⟩

/-- C10: The heartbeat decode depends only on payload bytes 0 to 7. Any
two frames with messageId 0 whose payloads agree on their first 8 bytes
decode to the same result, whatever their remaining payload bytes,
payload lengths, systemId and componentId. -/
theorem C10_heartbeat_depends_on_first8 (f g : Frame)
    (hf : f.MsgID = 0) (hg : g.MsgID = 0)
    (hfl : 8 ≤ f.Payload.length) (hgl : 8 ≤ g.Payload.length)
    (hagree : f.Payload.take 8 = g.Payload.take 8) :
    tryHeartbeat f = tryHeartbeat g := by
  have key : ∀ i, i < 8 → f.Payload.getD i 0 = g.Payload.getD i 0 := by
    intro i hi
    have h1 := List.getElem?_take_of_lt (l := f.Payload) (m := i) (n := 8) hi
    have h2 := List.getElem?_take_of_lt (l := g.Payload) (m := i) (n := 8) hi
    simp only [List.getD_eq_getElem?_getD, ← h1, ← h2, hagree]
  rw [tryHeartbeat_decodes f (Or.inl hf) hfl, tryHeartbeat_decodes g (Or.inl hg) hgl]
  rw [key 0 (by omega), key 1 (by omega), key 2 (by omega), key 3 (by omega),
      key 4 (by omega), key 5 (by omega), key 6 (by omega), key 7 (by omega)]

/-- Witness for C10: two frames agreeing on payload bytes 0 to 7 but
differing in payload length, trailing byte, systemId and componentId. -/
theorem C10_heartbeat_depends_on_first8_witness :
    hbFrameA.MsgID = 0 ∧ hbFrameB.MsgID = 0 ∧
      8 ≤ hbFrameA.Payload.length ∧ 8 ≤ hbFrameB.Payload.length ∧
      hbFrameA.Payload.take 8 = hbFrameB.Payload.take 8 ∧
      tryHeartbeat hbFrameA = tryHeartbeat hbFrameB :=
  ⟨rfl, rfl, by decide, by decide, by decide,
   C10_heartbeat_depends_on_first8 hbFrameA hbFrameB rfl rfl
     (by decide) (by decide) (by decide)⟩

end Aetherforge
